import Mathlib

/-!
Shallow embedding of the AI generation pipeline of the 10x-cards repository:
the OpenRouter remote-model client (src/lib/openrouter.service.ts), the
generation orchestrator (src/lib/generation.service.ts), the zod validation
schemas (src/lib/validation.ts), the flashcard batch writer
(src/lib/flashcard.service.ts), and the POST /api/generations and
POST /api/flashcards route handlers.

External effects (fetch, the supabase record store, JSON.parse, Date.now,
crypto's sha256) are modelled as explicit environment parameters; JavaScript
strings are modelled as Lean `String` (`s.substring(0, n)` becomes taking the
first `n` characters); JavaScript's falsy-or `a || b` on numbers and strings
is modelled by `jsOrNat` / `jsOrStr` (0, "" and undefined are falsy).
-/

/-- Models JavaScript `v || d` for an optional number: `undefined` and `0` are
falsy and fall back to the default. -/
def jsOrNat (v : Option Nat) (d : Nat) : Nat :=
  match v with
  | none => d
  | some n => if n = 0 then d else n

/-- Models JavaScript `v || d` for an optional string: `undefined` and `""` are
falsy and fall back to the default. -/
def jsOrStr (v : Option String) (d : String) : String :=
  match v with
  | none => d
  | some s => if s = "" then d else s

/-- Models JavaScript `s.substring(0, n)`: the first `n` characters of `s`. -/
def jsSubstringTo (s : String) (n : Nat) : String :=
  ⟨s.data.take n⟩

namespace OpenRouter

/-- The `OpenRouterErrorCode` string enum of openrouter.service.ts. -/
inductive ErrorCode where
  | MISSING_API_KEY
  | MISSING_USER_MESSAGE
  | HTTP_ERROR
  | AUTHENTICATION_ERROR
  | RATE_LIMIT_ERROR
  | TIMEOUT_ERROR
  | NETWORK_ERROR
  | REQUEST_FAILED
  | INVALID_RESPONSE
  | EMPTY_RESPONSE
  | JSON_PARSE_ERROR
  | UNKNOWN_ERROR
deriving DecidableEq, Repr

/-- The string value of an `OpenRouterErrorCode` enum member (the TS enum maps
each member to the string of its own name). -/
def ErrorCode.toCodeString : ErrorCode → String
  | .MISSING_API_KEY => "MISSING_API_KEY"
  | .MISSING_USER_MESSAGE => "MISSING_USER_MESSAGE"
  | .HTTP_ERROR => "HTTP_ERROR"
  | .AUTHENTICATION_ERROR => "AUTHENTICATION_ERROR"
  | .RATE_LIMIT_ERROR => "RATE_LIMIT_ERROR"
  | .TIMEOUT_ERROR => "TIMEOUT_ERROR"
  | .NETWORK_ERROR => "NETWORK_ERROR"
  | .REQUEST_FAILED => "REQUEST_FAILED"
  | .INVALID_RESPONSE => "INVALID_RESPONSE"
  | .EMPTY_RESPONSE => "EMPTY_RESPONSE"
  | .JSON_PARSE_ERROR => "JSON_PARSE_ERROR"
  | .UNKNOWN_ERROR => "UNKNOWN_ERROR"

/-- The `OpenRouterError` class: message, machine-readable code, optional HTTP
status, and the retryable flag.  The untyped `originalError` payload carries no
information used by any control flow and is omitted. -/
structure OpenRouterError where
  message : String
  code : ErrorCode
  statusCode : Option Nat
  retryable : Bool
deriving DecidableEq, Repr

/-- One choice of the `ApiResponse`; only the message content is read by the
client (`role` and `finish_reason` are never inspected). -/
structure Choice where
  content : String
deriving DecidableEq, Repr

/-- The optional `usage` block of the `ApiResponse`. -/
structure Usage where
  prompt_tokens : Nat
  completion_tokens : Nat
  total_tokens : Nat
deriving DecidableEq, Repr

/-- The OpenRouter `ApiResponse` shape, as the fields the client reads. -/
structure ApiResponse where
  choices : List Choice
  usage : Option Usage
  model : String
deriving DecidableEq, Repr

/-- The outcome of one `fetch` attempt, as discriminated by `executeRequest`:
a 2xx response with parsed body, a non-2xx response (status, statusText, and
the optional `errorData.error?.message` of the error body), an abort fired by
the per-attempt timeout, a `TypeError` (network failure), or any other thrown
error. -/
inductive FetchOutcome where
  | ok (resp : ApiResponse)
  | httpError (status : Nat) (statusText : String) (errMessage : Option String)
  | abortError
  | typeError (message : String)
  | otherError (message : String)

/-- The status-based classification of a non-2xx response in `executeRequest`:
the error code together with the retryable flag. -/
def classifyHttpStatus (status : Nat) : ErrorCode × Bool :=
  if status = 401 ∨ status = 403 then (.AUTHENTICATION_ERROR, false)
  else if status = 429 then (.RATE_LIMIT_ERROR, true)
  else if 500 ≤ status then (.HTTP_ERROR, true)
  else (.HTTP_ERROR, false)

/-- The `OpenRouterError` thrown for a non-2xx response: message is
`errorData.error?.message || "HTTP <status>: <statusText>"`, code and
retryable flag come from the status classification. -/
def httpErrorFor (status : Nat) (statusText : String) (errMessage : Option String) :
    OpenRouterError :=
  ⟨jsOrStr errMessage ("HTTP " ++ toString status ++ ": " ++ statusText),
   (classifyHttpStatus status).1, some status, (classifyHttpStatus status).2⟩

/-- The `OpenRouterError` built when the per-attempt timeout aborts the call. -/
def timeoutErrorFor (timeout : Nat) : OpenRouterError :=
  ⟨"Request timed out after " ++ toString timeout ++ "ms",
   .TIMEOUT_ERROR, none, true⟩

/-- The `OpenRouterError` built for a transport-level `TypeError`. -/
def networkErrorFor (message : String) : OpenRouterError :=
  ⟨"Network error: " ++ message, .NETWORK_ERROR, none, true⟩

/-- The `OpenRouterError` built for a non-`OpenRouterError` thrown value in the
retry loop's catch-all branch. -/
def requestFailedFor (maxRetries : Nat) (message : String) : OpenRouterError :=
  ⟨"Request failed after " ++ toString (maxRetries + 1) ++ " attempts: " ++ message,
   .REQUEST_FAILED, none, false⟩

/-- The classified `OpenRouterError` for a failing fetch outcome (`none` for a
2xx success).  This is the error the catch block of `executeRequest` ends up
holding for that attempt. -/
def classifiedOutcome (timeout maxRetries : Nat) : FetchOutcome → Option OpenRouterError
  | .ok _ => none
  | .httpError status statusText errMessage => some (httpErrorFor status statusText errMessage)
  | .abortError => some (timeoutErrorFor timeout)
  | .typeError m => some (networkErrorFor m)
  | .otherError m => some (requestFailedFor maxRetries m)

/-- The observable result of the retry loop: the final result, how many fetch
attempts were actually issued, and the backoff sleeps performed (in ms, in
order). -/
structure RunResult where
  result : Except OpenRouterError ApiResponse
  attemptsMade : Nat
  sleeps : List Nat
deriving Repr

/-- The body of the `for (let attempt = 0; attempt <= maxRetries; ...)` loop
of `executeRequest`, from loop index `attempt` on, with structural fuel (the loop runs at most
`maxRetries + 1 - attempt` more iterations, so fuel `maxRetries + 1` at entry
always suffices).  Fuel 0 corresponds to falling out of the loop, which throws
the trailing `UNKNOWN_ERROR` (unreachable for the real entry fuel). -/
def execFrom (maxRetries retryDelay timeout : Nat) (env : Nat → FetchOutcome) :
    Nat → Nat → RunResult
  | _, 0 =>
      ⟨.error ⟨"Request failed: Unknown error", .UNKNOWN_ERROR, none, false⟩, 0, []⟩
  | attempt, fuel + 1 =>
      match env attempt with
      | .ok resp => ⟨.ok resp, 1, []⟩
      | .abortError =>
          if attempt < maxRetries then
            let rest := execFrom maxRetries retryDelay timeout env (attempt + 1) fuel
            ⟨rest.result, rest.attemptsMade + 1, retryDelay * 2 ^ attempt :: rest.sleeps⟩
          else
            ⟨.error (timeoutErrorFor timeout), 1, []⟩
      | .typeError m =>
          if attempt < maxRetries then
            let rest := execFrom maxRetries retryDelay timeout env (attempt + 1) fuel
            ⟨rest.result, rest.attemptsMade + 1, retryDelay * 2 ^ attempt :: rest.sleeps⟩
          else
            ⟨.error (networkErrorFor m), 1, []⟩
      | .httpError status statusText errMessage =>
          let e := httpErrorFor status statusText errMessage
          if e.retryable = false then
            ⟨.error e, 1, []⟩
          else if attempt < maxRetries then
            let rest := execFrom maxRetries retryDelay timeout env (attempt + 1) fuel
            ⟨rest.result, rest.attemptsMade + 1, retryDelay * 2 ^ attempt :: rest.sleeps⟩
          else
            ⟨.error e, 1, []⟩
      | .otherError m =>
          ⟨.error (requestFailedFor maxRetries m), 1, []⟩

/-- `executeRequest`: run the attempt loop from attempt 0.  The loop makes at
most `maxRetries + 1` iterations. -/
def executeRequest (maxRetries retryDelay timeout : Nat) (env : Nat → FetchOutcome) :
    RunResult :=
  execFrom maxRetries retryDelay timeout env 0 (maxRetries + 1)

/-- The value `parseResponse` returns: raw text when JSON mode is off, the
decoded value when it is on. -/
inductive ParsedContent (α : Type) where
  | raw (s : String)
  | json (a : α)
deriving DecidableEq, Repr

/-- `parseResponse`: requires at least one choice with non-empty content; in
JSON mode the content is decoded by the external JSON parser `decode`
(`JSON.parse`), whose failure raises `JSON_PARSE_ERROR`. -/
def parseResponse {α : Type} (jsonMode : Bool) (decode : String → Option α)
    (resp : ApiResponse) : Except OpenRouterError (ParsedContent α) :=
  match resp.choices with
  | [] => .error ⟨"Invalid API response: no choices returned", .INVALID_RESPONSE, none, false⟩
  | c :: _ =>
      if c.content = "" then
        .error ⟨"Invalid API response: empty content", .EMPTY_RESPONSE, none, false⟩
      else if jsonMode then
        match decode c.content with
        | some a => .ok (.json a)
        | none => .error ⟨"Failed to parse JSON response", .JSON_PARSE_ERROR, none, false⟩
      else
        .ok (.raw c.content)

/-- The `RequestMetadata` record stored after every call.  The wall-clock
fields (`requestStartTime`, `requestEndTime`, `duration`) are values of the
runtime clock and are not modelled; the fields the spec's claims are about
(`attempt`, `success`, error code/message, token counts) are kept. -/
structure RequestMetadata where
  model : String
  promptTokens : Option Nat
  completionTokens : Option Nat
  totalTokens : Option Nat
  attempt : Nat
  success : Bool
  errorCode : Option ErrorCode
  errorMessage : Option String
deriving DecidableEq, Repr

/-- Everything observable from one `sendChatMessage` call: the value returned
or error thrown, the `lastRequestMetadata` stored, and the attempt/sleep trace
of the underlying retry loop. -/
structure SendResult (α : Type) where
  result : Except OpenRouterError (ParsedContent α)
  metadata : RequestMetadata
  attemptsMade : Nat
  sleeps : List Nat

/-- The resolved immutable configuration of an `OpenRouterService` instance
after the constructor's falsy-or merge. -/
structure ResolvedConfig where
  apiKey : String
  baseUrl : String
  timeout : Nat
  maxRetries : Nat
  retryDelay : Nat
deriving DecidableEq, Repr

/-- The `OpenRouterConfig` constructor argument (all fields optional). -/
structure OpenRouterConfig where
  apiKey : Option String
  baseUrl : Option String
  timeout : Option Nat
  maxRetries : Option Nat
  retryDelay : Option Nat

/-- The `OpenRouterService` constructor: the API key is
`config.apiKey || OPENROUTER_API_KEY`, a falsy result throws
`MISSING_API_KEY`; base URL, timeout, max retries and retry delay are merged
over their defaults with JavaScript's falsy `||`. -/
def mkOpenRouterService (envApiKey : Option String) (config : OpenRouterConfig) :
    Except OpenRouterError ResolvedConfig :=
  let key := jsOrStr config.apiKey (jsOrStr envApiKey "")
  if key = "" then
    .error ⟨"OpenRouter API key is required. Provide it via config or OPENROUTER_API_KEY environment variable.",
            .MISSING_API_KEY, none, false⟩
  else
    .ok ⟨key,
         jsOrStr config.baseUrl "https://openrouter.ai/api/v1",
         jsOrNat config.timeout 60000,
         jsOrNat config.maxRetries 3,
         jsOrNat config.retryDelay 1000⟩

/-- `sendChatMessage`: resolve the message (`userMessage || currentUserMessage`,
empty throws `MISSING_USER_MESSAGE`), run the retry loop, parse the response,
and store `lastRequestMetadata` — note the stored `attempt` field is the
literal `1` in both the success and the failure branch of the source. -/
def sendChatMessage {α : Type} (cfg : ResolvedConfig) (modelName : String)
    (jsonMode : Bool) (decode : String → Option α) (currentUserMessage : String)
    (env : Nat → FetchOutcome) (userMessage : Option String) : SendResult α :=
  let messageToSend := jsOrStr userMessage currentUserMessage
  if messageToSend = "" then
    let e : OpenRouterError :=
      ⟨"User message is required. Provide it via parameter or setUserMessage().",
       .MISSING_USER_MESSAGE, none, false⟩
    ⟨.error e, ⟨modelName, none, none, none, 1, false, some e.code, some e.message⟩, 0, []⟩
  else
    let run := executeRequest cfg.maxRetries cfg.retryDelay cfg.timeout env
    match run.result with
    | .error e =>
        ⟨.error e, ⟨modelName, none, none, none, 1, false, some e.code, some e.message⟩,
         run.attemptsMade, run.sleeps⟩
    | .ok resp =>
        match parseResponse jsonMode decode resp with
        | .error e =>
            ⟨.error e, ⟨modelName, none, none, none, 1, false, some e.code, some e.message⟩,
             run.attemptsMade, run.sleeps⟩
        | .ok content =>
            ⟨.ok content,
             ⟨modelName,
              resp.usage.map Usage.prompt_tokens,
              resp.usage.map Usage.completion_tokens,
              resp.usage.map Usage.total_tokens,
              1, true, none, none⟩,
             run.attemptsMade, run.sleeps⟩

end OpenRouter

namespace Validation

/-- One zod issue as the route handlers surface it: the path of the offending
field and a human-readable message. -/
structure FieldIssue where
  path : List String
  message : String
deriving DecidableEq, Repr

/-- The `FlashcardCreateDto` shape checked by `flashcardCreateDtoSchema`
(`source` is an arbitrary incoming string, constrained by the enum check). -/
structure FlashcardCreateDto where
  front : String
  back : String
  source : String
  generation_id : Option Int
deriving DecidableEq, Repr

/-- The base (per-field) issues of `flashcardCreateDtoSchema`, before the
`.refine` cross-field check: front non-empty and ≤200, back non-empty and
≤500, source in the enum. -/
def dtoBaseIssues (d : FlashcardCreateDto) : List FieldIssue :=
  (if d.front.length < 1 then [⟨["front"], "Front text is required"⟩] else []) ++
  (if 200 < d.front.length then [⟨["front"], "Front text cannot exceed 200 characters"⟩] else []) ++
  (if d.back.length < 1 then [⟨["back"], "Back text is required"⟩] else []) ++
  (if 500 < d.back.length then [⟨["back"], "Back text cannot exceed 500 characters"⟩] else []) ++
  (if d.source = "ai-full" ∨ d.source = "ai-edited" ∨ d.source = "manual" then []
   else [⟨["source"], "Invalid enum value"⟩])

/-- The message of the `.refine` cross-field issue. -/
def invariantMsg : String :=
  "generation_id must be null for manual source and required for ai-full/ai-edited sources"

/-- The `.refine` predicate of `flashcardCreateDtoSchema`: manual sources have
a null generation_id, AI sources a non-null one. -/
def dtoInvariant (d : FlashcardCreateDto) : Bool :=
  if d.source = "manual" then d.generation_id.isNone
  else if d.source = "ai-full" ∨ d.source = "ai-edited" then d.generation_id.isSome
  else true

/-- All issues of `flashcardCreateDtoSchema` for one flashcard: the base field
checks, and — only when those pass, since zod runs `.refine` only on a
successfully parsed value — the cross-field invariant, whose issue is attached
to the `generation_id` path. -/
def dtoIssues (d : FlashcardCreateDto) : List FieldIssue :=
  let base := dtoBaseIssues d
  if base.isEmpty then
    if dtoInvariant d then []
    else [⟨["generation_id"], invariantMsg⟩]
  else base

/-- The per-element issues of the `flashcards` array, with each issue's path
prefixed by `flashcards` and the element index. -/
def itemIssues : Nat → List FlashcardCreateDto → List FieldIssue
  | _, [] => []
  | i, d :: rest =>
      (dtoIssues d).map (fun iss => ⟨"flashcards" :: toString i :: iss.path, iss.message⟩) ++
      itemIssues (i + 1) rest

/-- All issues of `flashcardsCreateCommandSchema`: the array-level minimum of
one element, plus the per-element issues.  `safeParse` succeeds exactly when
this list is empty. -/
def commandIssues (flashcards : List FlashcardCreateDto) : List FieldIssue :=
  (if flashcards.isEmpty then [⟨["flashcards"], "At least one flashcard is required"⟩] else []) ++
  itemIssues 0 flashcards

/-- All issues of `generateFlashcardsCommandSchema`: `source_text` must be
between 1000 and 10000 characters. -/
def generationCommandIssues (source_text : String) : List FieldIssue :=
  (if source_text.length < 1000 then
    [⟨["source_text"], "Source text must be at least 1000 characters long"⟩] else []) ++
  (if 10000 < source_text.length then
    [⟨["source_text"], "Source text cannot exceed 10000 characters"⟩] else [])

end Validation

namespace Generation

open OpenRouter

/-- A raw card of the decoded model payload (`{front, back}`). -/
structure RawCard where
  front : String
  back : String
deriving DecidableEq, Repr

/-- The decoded JSON payload as `callAIService` discriminates it: either it has
a proper `flashcards` array (of any length), or the `flashcards` field is
missing / not an array. -/
inductive AIPayload where
  | withFlashcards (cards : List RawCard)
  | malformed
deriving Repr

/-- A `FlashcardProposalDto`. -/
structure FlashcardProposal where
  front : String
  back : String
  source : String
deriving DecidableEq, Repr

/-- A thrown JavaScript error as the orchestrator observes it: either an
`OpenRouterError` or a plain `Error` with its `name` and `message`. -/
inductive JsError where
  | openRouter (e : OpenRouterError)
  | plain (errName : String) (message : String)
deriving DecidableEq, Repr

/-- The `name` property of the thrown error (`"Error"` for a plain
`new Error(...)`). -/
def JsError.name : JsError → String
  | .openRouter _ => "OpenRouterError"
  | .plain n _ => n

/-- The `message` property of the thrown error. -/
def JsError.message : JsError → String
  | .openRouter e => e.message
  | .plain _ m => m

/-- The fixed `MODEL_NAME` of `GenerationService`. -/
def MODEL_NAME : String := "openai/gpt-4o-mini"

/-- The user-facing message `callAIService` throws for a given
`OpenRouterError` (the four known remote-failure classes get dedicated
messages; everything else gets the generic wrapper around the original
message). -/
def userFacingMessage (e : OpenRouterError) : String :=
  if e.code = .AUTHENTICATION_ERROR then
    "AI service authentication failed. Please check your API key."
  else if e.code = .RATE_LIMIT_ERROR then
    "AI service rate limit exceeded. Please try again later."
  else if e.code = .TIMEOUT_ERROR then
    "AI service request timed out. Please try again."
  else if e.code = .NETWORK_ERROR then
    "Network error while connecting to AI service. Please check your connection."
  else
    "AI service error: " ++ e.message

/-- `callAIService`: on a decoded payload with a `flashcards` array, map each
card to a proposal (front truncated to 200, back truncated to 500, source
`"ai-full"`) — a length other than 5 only logs a console warning and proceeds;
a malformed payload throws a plain `Error`; an `OpenRouterError` from
`sendChatMessage` is remapped to a plain `Error` carrying the user-facing
message. -/
def callAIService (aiResult : Except OpenRouterError AIPayload) :
    Except JsError (List FlashcardProposal) :=
  match aiResult with
  | .ok .malformed => .error (.plain "Error" "Invalid response format from AI service")
  | .ok (.withFlashcards cards) =>
      .ok (cards.map fun c => ⟨jsSubstringTo c.front 200, jsSubstringTo c.back 500, "ai-full"⟩)
  | .error e => .error (.plain "Error" (userFacingMessage e))

/-- A row inserted into the `generations` table. -/
structure GenerationRow where
  user_id : String
  model : String
  generated_count : Nat
  source_text_hash : String
  source_text_length : Nat
  generation_duration : Nat
deriving DecidableEq, Repr

/-- A row inserted into the `generation_error_logs` table (the source's insert
payload: user, code, message, model, hash, length — no duration column). -/
structure ErrorLogRow where
  user_id : String
  error_code : String
  error_message : String
  model : String
  source_text_hash : String
  source_text_length : Nat
deriving DecidableEq, Repr

/-- The `GenerationCreateResponseDto` returned on success. -/
structure GenerationCreateResponse where
  generation_id : Nat
  flashcards_proposals : List FlashcardProposal
  generated_count : Nat
deriving DecidableEq, Repr

/-- The external collaborators of one `generateFlashcards` call: the outcome
of the model call (`sendChatMessage<AIResponse>`), the client metadata's
duration, the wall-clock fallback duration, and the outcome of the
`generations` insert (the new row id, or a database error message). -/
structure GenEnv where
  aiResult : Except OpenRouterError AIPayload
  aiDuration : Option Nat
  wallDuration : Nat
  insertGeneration : Except String Nat

/-- Everything observable from one `generateFlashcards` call: the returned
value or propagated error, the attempted `generations` inserts, and the
attempted `generation_error_logs` inserts. -/
structure GenOutput where
  result : Except JsError GenerationCreateResponse
  generationInserts : List GenerationRow
  errorLogInserts : List ErrorLogRow
deriving Repr

/-- `logGenerationError`: builds the error-log row from the thrown error's
`name` and `message` and the hash/length of the raw source text, attempts the
insert, and swallows an insert failure (console logging only), so the row
attempt is recorded identically whether the insert succeeds or fails. -/
def logGenerationError (hash : String → String) (insertErrorLog : Except String Unit)
    (e : JsError) (sourceText model userId : String) : List ErrorLogRow :=
  let row : ErrorLogRow :=
    ⟨userId, e.name, e.message, model, hash sourceText, sourceText.length⟩
  match insertErrorLog with
  | .ok _ => [row]
  | .error _ => [row]

/-- `generateFlashcards`: call the AI service, persist the generation row
(duration is `metadata?.duration || wall-clock`), and return the response; on
any failure, attempt an error-log row and re-raise the original error.  `hash`
is the external sha256 hex digest (`calculateHash`). -/
def generateFlashcards (hash : String → String) (env : GenEnv)
    (insertErrorLog : Except String Unit) (sourceText userId : String) : GenOutput :=
  match callAIService env.aiResult with
  | .error e =>
      ⟨.error e, [], logGenerationError hash insertErrorLog e sourceText MODEL_NAME userId⟩
  | .ok proposals =>
      let generatedCount := proposals.length
      let generationDuration := jsOrNat env.aiDuration env.wallDuration
      let row : GenerationRow :=
        ⟨userId, MODEL_NAME, generatedCount, hash sourceText, sourceText.length,
         generationDuration⟩
      match env.insertGeneration with
      | .error _ =>
          let e : JsError := .plain "Error" "Failed to save generation metadata"
          ⟨.error e, [row], logGenerationError hash insertErrorLog e sourceText MODEL_NAME userId⟩
      | .ok genId =>
          ⟨.ok ⟨genId, proposals, generatedCount⟩, [row], []⟩

end Generation

namespace FlashcardSvc

/-- The incoming flashcard value as the batch writer receives it.  The
`user_id` field models a spoofed ownership property a raw JSON object may
carry at runtime; the service's insert mapping never reads it. -/
structure FlashcardCreateInput where
  front : String
  back : String
  source : String
  generation_id : Option Int
  user_id : Option String
deriving DecidableEq, Repr

/-- A row of the batch insert into the `flashcards` table. -/
structure FlashcardInsertRow where
  front : String
  back : String
  source : String
  generation_id : Option Int
  user_id : String
deriving DecidableEq, Repr

/-- A persisted flashcard as returned by the insert's `select`. -/
structure FlashcardDto where
  id : Nat
  front : String
  back : String
  source : String
  generation_id : Option Int
deriving DecidableEq, Repr

/-- The fields of an input flashcard that the insert mapping actually reads
(everything except the spoofable `user_id`). -/
def stripOwner (f : FlashcardCreateInput) : String × String × String × Option Int :=
  (f.front, f.back, f.source, f.generation_id)

/-- The rows prepared for the batch insert: front/back/source/generation_id
are copied from the input, `user_id` is forced to the caller-supplied id. -/
def rowsToInsert (flashcards : List FlashcardCreateInput) (userId : String) :
    List FlashcardInsertRow :=
  flashcards.map fun f => ⟨f.front, f.back, f.source, f.generation_id, userId⟩

/-- Everything observable from one `createFlashcards` call: the returned rows
or thrown error, and the batch insert attempted (none when the empty-input
guard threw first). -/
structure CreateOutput where
  result : Except String (List FlashcardDto)
  insertAttempt : Option (List FlashcardInsertRow)
deriving Repr

/-- `createFlashcards`: reject an empty batch, build the insert rows, run the
single batch insert (`db` models the record store call), propagate a database
error, and treat zero returned rows as a fatal anomaly. -/
def createFlashcards (db : List FlashcardInsertRow → Except String (List FlashcardDto))
    (flashcards : List FlashcardCreateInput) (userId : String) : CreateOutput :=
  if flashcards.length = 0 then
    ⟨.error "At least one flashcard is required", none⟩
  else
    let rows := rowsToInsert flashcards userId
    match db rows with
    | .error e => ⟨.error ("Failed to create flashcards: " ++ e), some rows⟩
    | .ok data =>
        if data.length = 0 then ⟨.error "No flashcards were created", some rows⟩
        else ⟨.ok data, some rows⟩

end FlashcardSvc

namespace Routes

open Validation Generation FlashcardSvc

/-- The observable outcome of `POST /api/generations` for an authenticated
user with a parsed body: the HTTP status, the validation details of a 400
response, and the generation-service call (`none` means the service — and so
the remote model — was never invoked). -/
structure GenerationsPostOutput where
  status : Nat
  validationDetails : List FieldIssue
  serviceCall : Option GenOutput

/-- `POST /api/generations`: validate `source_text` with
`generateFlashcardsCommandSchema`; a validation failure returns 400 with the
field issues and never invokes the generation service; otherwise run
`generateFlashcards` and map success to 201 and any thrown error to 500. -/
def postGenerations (hash : String → String) (env : GenEnv)
    (insertErrorLog : Except String Unit) (source_text userId : String) :
    GenerationsPostOutput :=
  let issues := generationCommandIssues source_text
  if issues.isEmpty then
    let out := generateFlashcards hash env insertErrorLog source_text userId
    match out.result with
    | .ok _ => ⟨201, [], some out⟩
    | .error _ => ⟨500, [], some out⟩
  else
    ⟨400, issues, none⟩

/-- The observable outcome of `POST /api/flashcards` for an authenticated user
with a parsed body: the HTTP status, the validation details of a 400 response,
and the flashcard-service call (`none` means no persistence was attempted). -/
structure FlashcardsPostOutput where
  status : Nat
  validationDetails : List FieldIssue
  serviceCall : Option CreateOutput

/-- The parsed DTO passed on to the service: zod strips unknown keys, so the
forwarded object carries no `user_id` property. -/
def dtoToInput (d : FlashcardCreateDto) : FlashcardCreateInput :=
  ⟨d.front, d.back, d.source, d.generation_id, none⟩

/-- `POST /api/flashcards`: validate the batch with
`flashcardsCreateCommandSchema`; a validation failure returns 400 with the
field issues and never invokes the flashcard service; otherwise run
`createFlashcards` with the authenticated user id and map success to 201 and
any thrown error to 500. -/
def postFlashcards (db : List FlashcardInsertRow → Except String (List FlashcardDto))
    (flashcards : List FlashcardCreateDto) (userId : String) : FlashcardsPostOutput :=
  let issues := commandIssues flashcards
  if issues.isEmpty then
    let out := createFlashcards db (flashcards.map dtoToInput) userId
    match out.result with
    | .ok _ => ⟨201, [], some out⟩
    | .error _ => ⟨500, [], some out⟩
  else
    ⟨400, issues, none⟩

end Routes

open OpenRouter Validation Generation FlashcardSvc Routes

/-- The retry loop makes at most `fuel` attempts. -/
theorem execFrom_attemptsMade_le (mr rd tm : Nat) (env : Nat → FetchOutcome) :
    ∀ fuel attempt, (execFrom mr rd tm env attempt fuel).attemptsMade ≤ fuel := by
  intro fuel
  induction fuel with
  | zero => intro attempt; simp [execFrom]
  | succ n ih =>
      intro attempt
      unfold execFrom
      cases henv : env attempt <;> dsimp only
      · exact Nat.le_add_left 1 n
      · split_ifs with h1 h2
        · exact Nat.le_add_left 1 n
        · exact Nat.succ_le_succ (ih (attempt + 1))
        · exact Nat.le_add_left 1 n
      · split_ifs with h1
        · exact Nat.succ_le_succ (ih (attempt + 1))
        · exact Nat.le_add_left 1 n
      · split_ifs with h1
        · exact Nat.succ_le_succ (ih (attempt + 1))
        · exact Nat.le_add_left 1 n
      · exact Nat.le_add_left 1 n

/-- A non-2xx response whose status classifies as non-retryable is raised from
the loop immediately, with no further attempt and no sleep. -/
theorem execFrom_nonretryable_http (mr rd tm : Nat) (env : Nat → FetchOutcome)
    (attempt fuel status : Nat) (stx : String) (em : Option String)
    (henv : env attempt = .httpError status stx em)
    (hcls : (classifyHttpStatus status).2 = false) :
    execFrom mr rd tm env attempt (fuel + 1) =
      ⟨.error (httpErrorFor status stx em), 1, []⟩ := by
  have h : (httpErrorFor status stx em).retryable = false := hcls
  unfold execFrom
  rw [henv]
  dsimp only
  rw [if_pos h]

/-- C2: a non-2xx response is classified by status — 401/403 give
AUTHENTICATION_ERROR non-retryable, 429 gives RATE_LIMIT_ERROR retryable,
status ≥ 500 gives HTTP_ERROR retryable, any other 4xx gives HTTP_ERROR
non-retryable; a non-retryable classified error is raised from the loop
immediately with no further attempt; for an endpoint that always returns 401,
exactly one attempt is made and the raised error's code is
AUTHENTICATION_ERROR. -/
theorem C2_status_classification_and_auth_no_retry (mr rd tm : Nat)
    (stx : String) (em : Option String) :
    classifyHttpStatus 401 = (.AUTHENTICATION_ERROR, false) ∧
    classifyHttpStatus 403 = (.AUTHENTICATION_ERROR, false) ∧
    classifyHttpStatus 429 = (.RATE_LIMIT_ERROR, true) ∧
    (∀ s, 500 ≤ s → classifyHttpStatus s = (.HTTP_ERROR, true)) ∧
    (∀ s, 400 ≤ s → s < 500 → s ≠ 401 → s ≠ 403 → s ≠ 429 →
      classifyHttpStatus s = (.HTTP_ERROR, false)) ∧
    (∀ (env : Nat → FetchOutcome) attempt fuel status,
      env attempt = .httpError status stx em →
      (classifyHttpStatus status).2 = false →
      execFrom mr rd tm env attempt (fuel + 1) =
        ⟨.error (httpErrorFor status stx em), 1, []⟩) ∧
    (executeRequest mr rd tm (fun _ => .httpError 401 stx em)).attemptsMade = 1 ∧
    ∃ e, (executeRequest mr rd tm (fun _ => .httpError 401 stx em)).result = .error e ∧
      e.code = .AUTHENTICATION_ERROR ∧ e.retryable = false := by
  have hrun : execFrom mr rd tm (fun _ => .httpError 401 stx em) 0 (mr + 1) =
      ⟨.error (httpErrorFor 401 stx em), 1, []⟩ :=
    execFrom_nonretryable_http mr rd tm _ 0 mr 401 stx em rfl (by decide)
  refine ⟨by decide, by decide, by decide, ?_, ?_, ?_, ?_, ?_⟩
  · intro s hs
    have h1 : ¬(s = 401 ∨ s = 403) := by omega
    have h2 : s ≠ 429 := by omega
    unfold classifyHttpStatus
    rw [if_neg h1, if_neg h2, if_pos hs]
  · intro s h4 h5 hne1 hne2 hne3
    have h1 : ¬(s = 401 ∨ s = 403) := by omega
    have h3 : ¬(500 ≤ s) := by omega
    unfold classifyHttpStatus
    rw [if_neg h1, if_neg hne3, if_neg h3]
  · exact fun env attempt fuel status henv hcls =>
      execFrom_nonretryable_http mr rd tm env attempt fuel status stx em henv hcls
  · unfold executeRequest
    rw [hrun]
  · refine ⟨httpErrorFor 401 stx em, ?_, rfl, rfl⟩
    unfold executeRequest
    rw [hrun]

/-- Witness for C2: concrete statuses 500/503/404, an immediate raise for a
concrete 403 endpoint, and the single-attempt run against an endpoint that
always returns 401. -/
theorem C2_witness :
    classifyHttpStatus 500 = (.HTTP_ERROR, true) ∧
    classifyHttpStatus 503 = (.HTTP_ERROR, true) ∧
    classifyHttpStatus 404 = (.HTTP_ERROR, false) ∧
    execFrom 3 1000 60000 (fun _ => .httpError 403 "Forbidden" none) 0 (0 + 1) =
      ⟨.error (httpErrorFor 403 "Forbidden" none), 1, []⟩ ∧
    (executeRequest 3 1000 60000 (fun _ => .httpError 401 "Unauthorized" none)).attemptsMade = 1 :=
  ⟨(C2_status_classification_and_auth_no_retry 3 1000 60000 "Unauthorized" none).2.2.2.1
      500 (by decide),
   (C2_status_classification_and_auth_no_retry 3 1000 60000 "Unauthorized" none).2.2.2.1
      503 (by decide),
   (C2_status_classification_and_auth_no_retry 3 1000 60000 "Unauthorized" none).2.2.2.2.1
      404 (by decide) (by decide) (by decide) (by decide) (by decide),
   (C2_status_classification_and_auth_no_retry 3 1000 60000 "Forbidden" none).2.2.2.2.2.1
      (fun _ => .httpError 403 "Forbidden" none) 0 0 403 rfl (by decide),
   (C2_status_classification_and_auth_no_retry 3 1000 60000 "Unauthorized" none).2.2.2.2.2.2.1⟩

/-- C6: the attempt loop runs attempts 0..maxRetries (at most maxRetries + 1
attempts); a retryable classified error on attempt i with i < maxRetries
sleeps exactly retryDelay * 2 ^ i before the next attempt; a retryable error
on the final attempt is raised with no further sleep. -/
theorem C6_exponential_backoff (mr rd tm : Nat) (env : Nat → FetchOutcome) :
    (executeRequest mr rd tm env).attemptsMade ≤ mr + 1 ∧
    (∀ attempt fuel e, classifiedOutcome tm mr (env attempt) = some e →
      e.retryable = true → attempt < mr →
      execFrom mr rd tm env attempt (fuel + 1) =
        ⟨(execFrom mr rd tm env (attempt + 1) fuel).result,
         (execFrom mr rd tm env (attempt + 1) fuel).attemptsMade + 1,
         rd * 2 ^ attempt :: (execFrom mr rd tm env (attempt + 1) fuel).sleeps⟩) ∧
    (∀ fuel e, classifiedOutcome tm mr (env mr) = some e → e.retryable = true →
      execFrom mr rd tm env mr (fuel + 1) = ⟨.error e, 1, []⟩) := by
  refine ⟨execFrom_attemptsMade_le mr rd tm env (mr + 1) 0, ?_, ?_⟩
  · intro attempt fuel e hco hr hlt
    cases henv : env attempt with
    | ok resp =>
        rw [henv] at hco
        simp [classifiedOutcome] at hco
    | httpError s st m =>
        rw [henv] at hco
        simp only [classifiedOutcome, Option.some.injEq] at hco
        subst hco
        have hnf : ¬((httpErrorFor s st m).retryable = false) := by
          rw [hr]; simp
        conv_lhs => unfold execFrom
        rw [henv]
        dsimp only
        rw [if_neg hnf, if_pos hlt]
    | abortError =>
        rw [henv] at hco
        simp only [classifiedOutcome, Option.some.injEq] at hco
        subst hco
        conv_lhs => unfold execFrom
        rw [henv]
        dsimp only
        rw [if_pos hlt]
    | typeError m =>
        rw [henv] at hco
        simp only [classifiedOutcome, Option.some.injEq] at hco
        subst hco
        conv_lhs => unfold execFrom
        rw [henv]
        dsimp only
        rw [if_pos hlt]
    | otherError m =>
        rw [henv] at hco
        simp only [classifiedOutcome, Option.some.injEq] at hco
        subst hco
        simp [requestFailedFor] at hr
  · intro fuel e hco hr
    have hnlt : ¬(mr < mr) := Nat.lt_irrefl mr
    cases henv : env mr with
    | ok resp =>
        rw [henv] at hco
        simp [classifiedOutcome] at hco
    | httpError s st m =>
        rw [henv] at hco
        simp only [classifiedOutcome, Option.some.injEq] at hco
        subst hco
        have hnf : ¬((httpErrorFor s st m).retryable = false) := by
          rw [hr]; simp
        unfold execFrom
        rw [henv]
        dsimp only
        rw [if_neg hnf, if_neg hnlt]
    | abortError =>
        rw [henv] at hco
        simp only [classifiedOutcome, Option.some.injEq] at hco
        subst hco
        unfold execFrom
        rw [henv]
        dsimp only
        rw [if_neg hnlt]
    | typeError m =>
        rw [henv] at hco
        simp only [classifiedOutcome, Option.some.injEq] at hco
        subst hco
        unfold execFrom
        rw [henv]
        dsimp only
        rw [if_neg hnlt]
    | otherError m =>
        rw [henv] at hco
        simp only [classifiedOutcome, Option.some.injEq] at hco
        subst hco
        simp [requestFailedFor] at hr

/-- Witness for C6: against an endpoint that always returns 429, attempt 0
sleeps 1000 * 2 ^ 0 before the next attempt, and a retryable error on the
final attempt (attempt 3 with maxRetries 3) is raised with no sleep. -/
theorem C6_witness :
    (executeRequest 3 1000 60000 (fun _ => .httpError 429 "Too Many Requests" none)).attemptsMade ≤ 3 + 1 ∧
    execFrom 3 1000 60000 (fun _ => .httpError 429 "Too Many Requests" none) 0 (3 + 1) =
      ⟨(execFrom 3 1000 60000 (fun _ => .httpError 429 "Too Many Requests" none) 1 3).result,
       (execFrom 3 1000 60000 (fun _ => .httpError 429 "Too Many Requests" none) 1 3).attemptsMade + 1,
       1000 * 2 ^ 0 :: (execFrom 3 1000 60000 (fun _ => .httpError 429 "Too Many Requests" none) 1 3).sleeps⟩ ∧
    execFrom 3 1000 60000 (fun _ => .httpError 429 "Too Many Requests" none) 3 (0 + 1) =
      ⟨.error (httpErrorFor 429 "Too Many Requests" none), 1, []⟩ :=
  ⟨(C6_exponential_backoff 3 1000 60000 (fun _ => .httpError 429 "Too Many Requests" none)).1,
   (C6_exponential_backoff 3 1000 60000 (fun _ => .httpError 429 "Too Many Requests" none)).2.1
     0 3 (httpErrorFor 429 "Too Many Requests" none) rfl (by decide) (by decide),
   (C6_exponential_backoff 3 1000 60000 (fun _ => .httpError 429 "Too Many Requests" none)).2.2
     0 (httpErrorFor 429 "Too Many Requests" none) rfl (by decide)⟩

/-- C10: constructing the client with an explicit 0 for timeout, maxRetries,
or retryDelay yields the defaults (60000, 3, 1000) because each config field
is merged with a falsy-or fallback; such a client still makes up to 4 attempts
on retryable errors (maxRetries resolves to 3, and an always-429 endpoint sees
3 + 1 attempts). -/
theorem C10_falsy_zero_config_defaults (k : String) (hk : ¬k = "")
    (burl envKey : Option String) :
    mkOpenRouterService envKey ⟨some k, burl, some 0, some 0, some 0⟩ =
      .ok ⟨k, jsOrStr burl "https://openrouter.ai/api/v1", 60000, 3, 1000⟩ ∧
    (executeRequest 3 1000 60000 (fun _ => .httpError 429 "Too Many Requests" none)).attemptsMade =
      3 + 1 := by
  constructor
  · simp [mkOpenRouterService, jsOrStr, jsOrNat, hk]
  · rfl

/-- Witness for C10: a concrete key with all-zero numeric config resolves to
the defaults, and the resulting retry policy still makes 4 attempts. -/
theorem C10_witness :
    mkOpenRouterService none ⟨some "test-key", none, some 0, some 0, some 0⟩ =
      .ok ⟨"test-key", jsOrStr none "https://openrouter.ai/api/v1", 60000, 3, 1000⟩ ∧
    (executeRequest 3 1000 60000 (fun _ => .httpError 429 "Too Many Requests" none)).attemptsMade =
      3 + 1 :=
  C10_falsy_zero_config_defaults "test-key" (by decide) none none

/-- A demo endpoint that returns 429 on the first two attempts and succeeds on
the third. -/
def retryTwiceEnv : Nat → FetchOutcome := fun i =>
  if i < 2 then .httpError 429 "Too Many Requests" none
  else .ok ⟨[⟨"hello"⟩], none, "openai/gpt-4o-mini"⟩

/-- The send call against `retryTwiceEnv`: it succeeds on its third attempt. -/
def retryTwiceSend : SendResult Unit :=
  sendChatMessage ⟨"key", "https://openrouter.ai/api/v1", 60000, 3, 1000⟩
    "openai/gpt-4o-mini" false (fun _ => none) "" retryTwiceEnv (some "hi")

/-- Counterexample to C9: a call that succeeds on its third attempt records
`attempt = 1` in its metadata, not 3 — the source stores the literal 1 in both
the success and the failure branch of `sendChatMessage`, so the recorded
attempt count does not equal the number of attempts actually made. -/
theorem C9_counterexample :
    retryTwiceSend.attemptsMade = 3 ∧ retryTwiceSend.metadata.attempt = 1 ∧
    retryTwiceSend.metadata.attempt ≠ retryTwiceSend.attemptsMade := by
  refine ⟨rfl, rfl, ?_⟩
  decide

/-- C9 amended: after every send call the recorded metadata's success flag and
error code/message reflect that call's own outcome, but its `attempt` field is
always the literal 1, regardless of how many attempts were actually made. -/
theorem C9_metadata_reflects_outcome_but_attempt_is_one {α : Type}
    (cfg : ResolvedConfig) (modelName : String) (jsonMode : Bool)
    (decode : String → Option α) (cur : String) (env : Nat → FetchOutcome)
    (um : Option String) :
    (sendChatMessage cfg modelName jsonMode decode cur env um).metadata.attempt = 1 ∧
    (sendChatMessage cfg modelName jsonMode decode cur env um).metadata.model = modelName ∧
    (∀ e, (sendChatMessage cfg modelName jsonMode decode cur env um).result = .error e →
      (sendChatMessage cfg modelName jsonMode decode cur env um).metadata.success = false ∧
      (sendChatMessage cfg modelName jsonMode decode cur env um).metadata.errorCode = some e.code ∧
      (sendChatMessage cfg modelName jsonMode decode cur env um).metadata.errorMessage = some e.message) ∧
    (∀ v, (sendChatMessage cfg modelName jsonMode decode cur env um).result = .ok v →
      (sendChatMessage cfg modelName jsonMode decode cur env um).metadata.success = true) := by
  unfold sendChatMessage
  dsimp only
  split_ifs with h
  · refine ⟨rfl, rfl, ?_, ?_⟩
    · intro e he
      cases he
      exact ⟨rfl, rfl, rfl⟩
    · intro v hv
      simp at hv
  · split
    · refine ⟨rfl, rfl, ?_, ?_⟩
      · intro e he
        cases he
        exact ⟨rfl, rfl, rfl⟩
      · intro v hv
        simp at hv
    · split
      · refine ⟨rfl, rfl, ?_, ?_⟩
        · intro e he
          cases he
          exact ⟨rfl, rfl, rfl⟩
        · intro v hv
          simp at hv
      · refine ⟨rfl, rfl, ?_, ?_⟩
        · intro e he
          simp at he
        · intro v hv
          rfl

/-- Witness for C9 amended: the call that succeeded on its third attempt still
records attempt 1, with the success flag set. -/
theorem C9_witness :
    retryTwiceSend.metadata.attempt = 1 ∧ retryTwiceSend.metadata.success = true :=
  ⟨(C9_metadata_reflects_outcome_but_attempt_is_one
      ⟨"key", "https://openrouter.ai/api/v1", 60000, 3, 1000⟩ "openai/gpt-4o-mini"
      false (fun _ => none) "" retryTwiceEnv (some "hi")).1,
   (C9_metadata_reflects_outcome_but_attempt_is_one
      ⟨"key", "https://openrouter.ai/api/v1", 60000, 3, 1000⟩ "openai/gpt-4o-mini"
      false (fun _ => none) "" retryTwiceEnv (some "hi")).2.2.2 (.raw "hello") rfl⟩

/-- Truncation bound: taking the first `n` characters gives length at most
`n`. -/
theorem jsSubstringTo_length_le (s : String) (n : Nat) :
    (jsSubstringTo s n).length ≤ n := by
  show (s.data.take n).length ≤ n
  rw [List.length_take]
  exact min_le_left _ _

/-- C1: on any failure of a generation attempt the orchestrator attempts
exactly one error-log row whose source_text_hash is the hash of the same raw
source text used for any generation row, and the whole observable outcome —
in particular the propagated error — does not depend on whether the error-log
insert itself succeeds or fails (the log failure is swallowed). -/
theorem C1_error_log_hash_and_error_propagation (hash : String → String)
    (env : GenEnv) (l l' : Except String Unit) (src uid : String) :
    generateFlashcards hash env l src uid = generateFlashcards hash env l' src uid ∧
    (∀ e, (generateFlashcards hash env l src uid).result = .error e →
      (generateFlashcards hash env l src uid).errorLogInserts.map
        ErrorLogRow.source_text_hash = [hash src]) ∧
    (∀ r ∈ (generateFlashcards hash env l src uid).generationInserts,
      r.source_text_hash = hash src) := by
  obtain ⟨ai, ad, wd, ig⟩ := env
  cases ai with
  | error e0 =>
      refine ⟨?_, ?_, ?_⟩
      · cases l <;> cases l' <;> rfl
      · intro e he
        cases l <;> rfl
      · intro r hr
        exact absurd hr (List.not_mem_nil r)
  | ok payload =>
      cases payload with
      | malformed =>
          refine ⟨?_, ?_, ?_⟩
          · cases l <;> cases l' <;> rfl
          · intro e he
            cases l <;> rfl
          · intro r hr
            exact absurd hr (List.not_mem_nil r)
      | withFlashcards cards =>
          cases ig with
          | error msg =>
              refine ⟨?_, ?_, ?_⟩
              · cases l <;> cases l' <;> rfl
              · intro e he
                cases l <;> rfl
              · intro r hr
                rw [List.eq_of_mem_singleton hr]
          | ok genId =>
              refine ⟨rfl, ?_, ?_⟩
              · intro e he
                exact Except.noConfusion he
              · intro r hr
                rw [List.eq_of_mem_singleton hr]

/-- Witness for C1: the model call succeeds but the generation insert fails;
the outcome is identical whether the error-log insert fails or succeeds, and
the attempted error-log row carries the hash of the raw source text. -/
theorem C1_witness :
    generateFlashcards (fun s => s)
        ⟨.ok (.withFlashcards [⟨"f", "b"⟩]), some 7, 9, .error "db down"⟩
        (.error "log down") "srctext" "user-1" =
      generateFlashcards (fun s => s)
        ⟨.ok (.withFlashcards [⟨"f", "b"⟩]), some 7, 9, .error "db down"⟩
        (.ok ()) "srctext" "user-1" ∧
    (generateFlashcards (fun s => s)
        ⟨.ok (.withFlashcards [⟨"f", "b"⟩]), some 7, 9, .error "db down"⟩
        (.error "log down") "srctext" "user-1").errorLogInserts.map
      ErrorLogRow.source_text_hash = ["srctext"] :=
  ⟨(C1_error_log_hash_and_error_propagation (fun s => s)
      ⟨.ok (.withFlashcards [⟨"f", "b"⟩]), some 7, 9, .error "db down"⟩
      (.error "log down") (.ok ()) "srctext" "user-1").1,
   (C1_error_log_hash_and_error_propagation (fun s => s)
      ⟨.ok (.withFlashcards [⟨"f", "b"⟩]), some 7, 9, .error "db down"⟩
      (.error "log down") (.ok ()) "srctext" "user-1").2.1
     (.plain "Error" "Failed to save generation metadata") rfl⟩

/-- C4: a successful structured-JSON response whose decoded payload has a
`flashcards` array of any length n yields exactly n proposals — no failure —
each truncated to front ≤ 200 / back ≤ 500 and tagged source "ai-full". -/
theorem C4_lenient_proposal_count (cards : List RawCard) :
    ∃ ps, callAIService (.ok (.withFlashcards cards)) = .ok ps ∧
      ps.length = cards.length ∧
      ps = cards.map (fun c =>
        ⟨jsSubstringTo c.front 200, jsSubstringTo c.back 500, "ai-full"⟩) ∧
      ∀ p ∈ ps, p.front.length ≤ 200 ∧ p.back.length ≤ 500 ∧ p.source = "ai-full" := by
  refine ⟨_, rfl, by simp, rfl, ?_⟩
  intro p hp
  rcases List.mem_map.mp hp with ⟨c, hc, rfl⟩
  exact ⟨jsSubstringTo_length_le _ _, jsSubstringTo_length_le _ _, rfl⟩

/-- Witness for C4: a payload with 3 cards (not 5) still yields 3 proposals. -/
theorem C4_witness :
    ∃ ps, callAIService (.ok (.withFlashcards [⟨"q1", "a1"⟩, ⟨"q2", "a2"⟩, ⟨"q3", "a3"⟩])) =
        .ok ps ∧ ps.length = 3 ∧
      ∀ p ∈ ps, p.front.length ≤ 200 ∧ p.back.length ≤ 500 ∧ p.source = "ai-full" := by
  obtain ⟨ps, h1, h2, _, h4⟩ :=
    C4_lenient_proposal_count [⟨"q1", "a1"⟩, ⟨"q2", "a2"⟩, ⟨"q3", "a3"⟩]
  exact ⟨ps, h1, h2, h4⟩

/-- A demo environment whose model call fails with an authentication error. -/
def authFailEnv : GenEnv :=
  ⟨.error ⟨"Invalid key", .AUTHENTICATION_ERROR, some 401, false⟩, none, 5, .ok 1⟩

/-- Counterexample to C8: for a model-call failure classified
AUTHENTICATION_ERROR, the GenerationErrorLog row attempted by the orchestrator
records error_code "Error" — the `name` of the remapped plain Error — not the
original classification code AUTHENTICATION_ERROR.  (`logGenerationError`
stores `error.name`, and the remapping in `callAIService` throws
`new Error(...)`.) -/
theorem C8_counterexample :
    (generateFlashcards (fun s => s) authFailEnv (.ok ()) "srctext" "user-1").errorLogInserts.map
        ErrorLogRow.error_code = ["Error"] ∧
    ¬(generateFlashcards (fun s => s) authFailEnv (.ok ()) "srctext" "user-1").errorLogInserts.map
        ErrorLogRow.error_code = [ErrorCode.toCodeString .AUTHENTICATION_ERROR] := by
  constructor
  · rfl
  · decide

/-- C8 amended: for client failures classified authentication, rate-limit,
timeout, or network, the orchestrator raises a plain Error whose user-facing
message is distinct from the internal error-code string (the original code is
only echoed to the console at the remapping site); the GenerationErrorLog row
written for the failure records error_code "Error" — the thrown Error's name —
and the user-facing message, not the original classification code. -/
theorem C8_user_facing_remap_and_log_error_name (hash : String → String)
    (env : GenEnv) (l : Except String Unit) (src uid : String)
    (e : OpenRouterError) (hai : env.aiResult = .error e)
    (hcode : e.code = .AUTHENTICATION_ERROR ∨ e.code = .RATE_LIMIT_ERROR ∨
      e.code = .TIMEOUT_ERROR ∨ e.code = .NETWORK_ERROR) :
    (generateFlashcards hash env l src uid).result =
      .error (.plain "Error" (userFacingMessage e)) ∧
    userFacingMessage e ≠ ErrorCode.toCodeString e.code ∧
    (generateFlashcards hash env l src uid).errorLogInserts.map
      ErrorLogRow.error_code = ["Error"] ∧
    (generateFlashcards hash env l src uid).errorLogInserts.map
      ErrorLogRow.error_message = [userFacingMessage e] := by
  obtain ⟨ai, ad, wd, ig⟩ := env
  have hai' : ai = .error e := hai
  subst hai'
  refine ⟨rfl, ?_, ?_, ?_⟩
  · rcases hcode with h | h | h | h
    · unfold userFacingMessage
      rw [h, if_pos rfl]
      decide
    · unfold userFacingMessage
      rw [h, if_neg (by decide), if_pos rfl]
      decide
    · unfold userFacingMessage
      rw [h, if_neg (by decide), if_neg (by decide), if_pos rfl]
      decide
    · unfold userFacingMessage
      rw [h, if_neg (by decide), if_neg (by decide), if_neg (by decide), if_pos rfl]
      decide
  · cases l <;> rfl
  · cases l <;> rfl

/-- Witness for C8 amended: the concrete authentication failure. -/
theorem C8_witness :
    (generateFlashcards (fun s => s) authFailEnv (.ok ()) "srctext" "user-1").result =
      .error (.plain "Error"
        (userFacingMessage ⟨"Invalid key", .AUTHENTICATION_ERROR, some 401, false⟩)) ∧
    userFacingMessage ⟨"Invalid key", .AUTHENTICATION_ERROR, some 401, false⟩ ≠
      ErrorCode.toCodeString .AUTHENTICATION_ERROR ∧
    (generateFlashcards (fun s => s) authFailEnv (.ok ()) "srctext" "user-1").errorLogInserts.map
      ErrorLogRow.error_code = ["Error"] :=
  ⟨(C8_user_facing_remap_and_log_error_name (fun s => s) authFailEnv (.ok ())
      "srctext" "user-1" ⟨"Invalid key", .AUTHENTICATION_ERROR, some 401, false⟩
      rfl (Or.inl rfl)).1,
   (C8_user_facing_remap_and_log_error_name (fun s => s) authFailEnv (.ok ())
      "srctext" "user-1" ⟨"Invalid key", .AUTHENTICATION_ERROR, some 401, false⟩
      rfl (Or.inl rfl)).2.1,
   (C8_user_facing_remap_and_log_error_name (fun s => s) authFailEnv (.ok ())
      "srctext" "user-1" ⟨"Invalid key", .AUTHENTICATION_ERROR, some 401, false⟩
      rfl (Or.inl rfl)).2.2.1⟩

/-- The per-element issue list is empty exactly when every element's own issue
list is empty (independently of the starting index). -/
theorem itemIssues_eq_nil_iff (batch : List FlashcardCreateDto) :
    ∀ i, itemIssues i batch = [] ↔ ∀ d ∈ batch, dtoIssues d = [] := by
  induction batch with
  | nil => intro i; simp [itemIssues]
  | cons d rest ih =>
      intro i
      simp only [itemIssues, List.append_eq_nil, List.map_eq_nil_iff, List.mem_cons]
      constructor
      · rintro ⟨h1, h2⟩ d' hd'
        rcases hd' with rfl | hd'
        · exact h1
        · exact (ih (i + 1)).mp h2 d' hd'
      · intro h
        exact ⟨h d (Or.inl rfl), (ih (i + 1)).mpr fun d' hd' => h d' (Or.inr hd')⟩

/-- A single flashcard's issue list is empty exactly when its base field
checks pass and the cross-field invariant holds. -/
theorem dtoIssues_eq_nil_iff (d : FlashcardCreateDto) :
    dtoIssues d = [] ↔ dtoBaseIssues d = [] ∧ dtoInvariant d = true := by
  simp only [dtoIssues, List.isEmpty_iff]
  split_ifs <;> simp_all

/-- C5: generation-request validation fails exactly when the source text's
length is outside [1000, 10000]; on failure the route answers 400, every issue
is attached to the source_text field, and the generation service — hence the
remote model — is never invoked. -/
theorem C5_generation_validation_range (src uid : String) (hash : String → String)
    (env : GenEnv) (l : Except String Unit) :
    (generationCommandIssues src = [] ↔ 1000 ≤ src.length ∧ src.length ≤ 10000) ∧
    (generationCommandIssues src ≠ [] →
      (postGenerations hash env l src uid).status = 400 ∧
      (postGenerations hash env l src uid).serviceCall = none ∧
      ∀ iss ∈ (postGenerations hash env l src uid).validationDetails,
        iss.path = ["source_text"]) := by
  constructor
  · unfold generationCommandIssues
    split_ifs with h1 h2 <;> simp <;> omega
  · intro hne
    have hni : ¬((generationCommandIssues src).isEmpty = true) := by
      intro hi
      exact hne (List.isEmpty_iff.mp hi)
    unfold postGenerations
    rw [if_neg hni]
    refine ⟨rfl, rfl, ?_⟩
    intro iss hi
    unfold generationCommandIssues at hi
    rcases List.mem_append.mp hi with h | h <;> (split_ifs at h <;> simp_all)

/-- Witness for C5: a 1-character source text fails validation, answers 400,
and never reaches the generation service. -/
theorem C5_witness :
    (generationCommandIssues "x" = [] ↔ 1000 ≤ "x".length ∧ "x".length ≤ 10000) ∧
    (postGenerations (fun s => s) authFailEnv (.ok ()) "x" "user-1").status = 400 ∧
    (postGenerations (fun s => s) authFailEnv (.ok ()) "x" "user-1").serviceCall = none :=
  ⟨(C5_generation_validation_range "x" "user-1" (fun s => s) authFailEnv (.ok ())).1,
   ((C5_generation_validation_range "x" "user-1" (fun s => s) authFailEnv (.ok ())).2
     (by decide)).1,
   ((C5_generation_validation_range "x" "user-1" (fun s => s) authFailEnv (.ok ())).2
     (by decide)).2.1⟩

/-- Counterexample to C3: a batch whose single flashcard is manual-sourced
with a non-null generation_id but also has an empty front fails validation
(zod runs `.refine` only when the base object checks pass), so no issue at all
is attached to the generation_id field — the failure is reported on `front`
only. -/
theorem C3_counterexample :
    commandIssues [⟨"", "answer", "manual", some 5⟩] ≠ [] ∧
    ∀ iss ∈ commandIssues [⟨"", "answer", "manual", some 5⟩],
      ¬"generation_id" ∈ iss.path := by
  decide

/-- A violating element contributes an issue whose path mentions the
generation_id field, provided its base checks pass. -/
theorem itemIssues_has_generation_id_issue (batch : List FlashcardCreateDto) :
    ∀ i d, d ∈ batch → dtoBaseIssues d = [] → dtoInvariant d = false →
      ∃ iss ∈ itemIssues i batch, "generation_id" ∈ iss.path := by
  induction batch with
  | nil => intro i d hd _ _; simp at hd
  | cons d0 rest ih =>
      intro i d hd hb hi
      rcases List.mem_cons.mp hd with rfl | hd'
      · have hdi : dtoIssues d = [⟨["generation_id"], invariantMsg⟩] := by
          simp [dtoIssues, hb, hi]
        refine ⟨⟨"flashcards" :: toString i :: ["generation_id"], invariantMsg⟩, ?_, by simp⟩
        show _ ∈ itemIssues i (d :: rest)
        unfold itemIssues
        apply List.mem_append_left
        rw [hdi]
        simp
      · obtain ⟨iss, hmem, hgen⟩ := ih (i + 1) d hd' hb hi
        refine ⟨iss, ?_, hgen⟩
        unfold itemIssues
        exact List.mem_append_right _ hmem

/-- The batch schema accepts exactly the non-empty batches whose every element
is issue-free. -/
theorem commandIssues_eq_nil_iff (batch : List FlashcardCreateDto) :
    commandIssues batch = [] ↔ batch ≠ [] ∧ ∀ d ∈ batch, dtoIssues d = [] := by
  by_cases hempty : batch = []
  · subst hempty
    simp [commandIssues, itemIssues]
  · have hE : ¬(batch.isEmpty = true) := fun hi => hempty (List.isEmpty_iff.mp hi)
    unfold commandIssues
    rw [if_neg hE, List.nil_append, itemIssues_eq_nil_iff batch 0]
    simp [hempty]

/-- C3 amended: flashcard-batch validation succeeds exactly when the batch is
non-empty and every element passes its base checks and the source /
generation_id invariant; any batch containing an invariant-violating item
fails validation with a 400 before any persistence call; the failure issue is
attached to the generation_id field whenever the offending item's base field
checks pass (otherwise the failure is reported on the offending base fields);
and whenever the route reaches the persistence layer, every item of the batch
satisfies the invariant. -/
theorem C3_invariant_gates_persistence
    (db : List FlashcardInsertRow → Except String (List FlashcardDto))
    (batch : List FlashcardCreateDto) (uid : String) :
    (commandIssues batch = [] ↔
      batch ≠ [] ∧ ∀ d ∈ batch, dtoBaseIssues d = [] ∧ dtoInvariant d = true) ∧
    (∀ d ∈ batch, dtoInvariant d = false →
      commandIssues batch ≠ [] ∧
      (postFlashcards db batch uid).status = 400 ∧
      (postFlashcards db batch uid).serviceCall = none) ∧
    (∀ d ∈ batch, dtoBaseIssues d = [] → dtoInvariant d = false →
      ∃ iss ∈ commandIssues batch, "generation_id" ∈ iss.path) ∧
    (∀ out, (postFlashcards db batch uid).serviceCall = some out →
      ∀ d ∈ batch, dtoInvariant d = true) := by
  have hiff : commandIssues batch = [] ↔
      batch ≠ [] ∧ ∀ d ∈ batch, dtoBaseIssues d = [] ∧ dtoInvariant d = true := by
    rw [commandIssues_eq_nil_iff]
    constructor
    · rintro ⟨h1, h2⟩
      exact ⟨h1, fun d hd => (dtoIssues_eq_nil_iff d).mp (h2 d hd)⟩
    · rintro ⟨h1, h2⟩
      exact ⟨h1, fun d hd => (dtoIssues_eq_nil_iff d).mpr (h2 d hd)⟩
  have hfail : ∀ d ∈ batch, dtoInvariant d = false → commandIssues batch ≠ [] := by
    intro d hd hinv hnil
    have h2 := ((hiff.mp hnil).2 d hd).2
    rw [h2] at hinv
    exact Bool.noConfusion hinv
  refine ⟨hiff, ?_, ?_, ?_⟩
  · intro d hd hinv
    have hne := hfail d hd hinv
    have hE : ¬((commandIssues batch).isEmpty = true) :=
      fun hi => hne (List.isEmpty_iff.mp hi)
    have h400 : (postFlashcards db batch uid).status = 400 ∧
        (postFlashcards db batch uid).serviceCall = none := by
      unfold postFlashcards
      dsimp only
      rw [if_neg hE]
      exact ⟨rfl, rfl⟩
    exact ⟨hne, h400.1, h400.2⟩
  · intro d hd hb hinv
    obtain ⟨iss, hmem, hgen⟩ := itemIssues_has_generation_id_issue batch 0 d hd hb hinv
    refine ⟨iss, ?_, hgen⟩
    unfold commandIssues
    exact List.mem_append_right _ hmem
  · intro out hout d hd
    by_cases hnil : commandIssues batch = []
    · exact ((hiff.mp hnil).2 d hd).2
    · exfalso
      have hE : ¬((commandIssues batch).isEmpty = true) :=
        fun hi => hnil (List.isEmpty_iff.mp hi)
      unfold postFlashcards at hout
      dsimp only at hout
      rw [if_neg hE] at hout
      exact Option.noConfusion hout

/-- A record store stub for route-level witnesses. -/
def dbUnused : List FlashcardInsertRow → Except String (List FlashcardDto) :=
  fun _ => .error "down"

/-- Witness for C3 amended: a manual-source flashcard with a non-null
generation_id (and valid base fields) fails validation with a 400, no
persistence call, and an issue attached to the generation_id field. -/
theorem C3_witness :
    commandIssues [⟨"q", "a", "manual", some 1⟩] ≠ [] ∧
    (postFlashcards dbUnused [⟨"q", "a", "manual", some 1⟩] "user-1").status = 400 ∧
    (postFlashcards dbUnused [⟨"q", "a", "manual", some 1⟩] "user-1").serviceCall = none ∧
    ∃ iss ∈ commandIssues [⟨"q", "a", "manual", some 1⟩], "generation_id" ∈ iss.path :=
  ⟨((C3_invariant_gates_persistence dbUnused [⟨"q", "a", "manual", some 1⟩] "user-1").2.1
      ⟨"q", "a", "manual", some 1⟩ (by simp) (by decide)).1,
   ((C3_invariant_gates_persistence dbUnused [⟨"q", "a", "manual", some 1⟩] "user-1").2.1
      ⟨"q", "a", "manual", some 1⟩ (by simp) (by decide)).2.1,
   ((C3_invariant_gates_persistence dbUnused [⟨"q", "a", "manual", some 1⟩] "user-1").2.1
      ⟨"q", "a", "manual", some 1⟩ (by simp) (by decide)).2.2,
   (C3_invariant_gates_persistence dbUnused [⟨"q", "a", "manual", some 1⟩] "user-1").2.2.1
      ⟨"q", "a", "manual", some 1⟩ (by simp) (by decide) (by decide)⟩

/-- Every prepared insert row carries the caller-supplied user id. -/
theorem rowsToInsert_user_id (fs : List FlashcardCreateInput) (uid : String) :
    ∀ r ∈ rowsToInsert fs uid, r.user_id = uid := by
  intro r hr
  rcases List.mem_map.mp hr with ⟨f, hf, rfl⟩
  rfl

/-- The prepared insert rows depend on the input only through the fields the
mapping reads (never through a spoofed user_id). -/
theorem rowsToInsert_eq_of_stripOwner_eq (fs fs' : List FlashcardCreateInput)
    (uid : String) (h : fs.map stripOwner = fs'.map stripOwner) :
    rowsToInsert fs uid = rowsToInsert fs' uid := by
  have key : ∀ gs : List FlashcardCreateInput, rowsToInsert gs uid =
      (gs.map stripOwner).map (fun t => ⟨t.1, t.2.1, t.2.2.1, t.2.2.2, uid⟩) := by
    intro gs
    unfold rowsToInsert stripOwner
    rw [List.map_map]
    rfl
  rw [key fs, key fs', h]

/-- The batch insert is attempted with exactly the prepared rows, when it is
attempted at all. -/
theorem createFlashcards_insertAttempt
    (db : List FlashcardInsertRow → Except String (List FlashcardDto))
    (fs : List FlashcardCreateInput) (uid : String) :
    (createFlashcards db fs uid).insertAttempt = none ∨
    (createFlashcards db fs uid).insertAttempt = some (rowsToInsert fs uid) := by
  unfold createFlashcards
  split_ifs with h0
  · exact Or.inl rfl
  · dsimp only
    split
    · exact Or.inr rfl
    · split_ifs <;> exact Or.inr rfl

/-- C7: every row `createFlashcards` inserts has user_id equal to the
caller-supplied userId, and the whole observable outcome is independent of any
user_id value carried by the input flashcards — two inputs agreeing on all
read fields produce the same call. -/
theorem C7_user_id_forced_and_spoof_independent
    (db : List FlashcardInsertRow → Except String (List FlashcardDto))
    (fs fs' : List FlashcardCreateInput) (uid : String)
    (h : fs.map stripOwner = fs'.map stripOwner) :
    (∀ rows, (createFlashcards db fs uid).insertAttempt = some rows →
      ∀ r ∈ rows, r.user_id = uid) ∧
    createFlashcards db fs uid = createFlashcards db fs' uid := by
  constructor
  · intro rows hrows r hr
    rcases createFlashcards_insertAttempt db fs uid with hcase | hcase
    · rw [hcase] at hrows
      exact Option.noConfusion hrows
    · rw [hcase] at hrows
      injection hrows with hrows'
      subst hrows'
      exact rowsToInsert_user_id fs uid r hr
  · have hrows_eq := rowsToInsert_eq_of_stripOwner_eq fs fs' uid h
    have hlen : fs.length = fs'.length := by
      have := congrArg List.length h
      simpa using this
    unfold createFlashcards
    rw [hrows_eq, hlen]

/-- Witness for C7: a spoofed input user_id is ignored — the inserted row
carries the caller's id, and the call is identical with the spoofed field
removed. -/
theorem C7_witness :
    (⟨"f", "b", "manual", none, "user-1"⟩ : FlashcardInsertRow).user_id = "user-1" ∧
    createFlashcards dbUnused [⟨"f", "b", "manual", none, some "attacker"⟩] "user-1" =
      createFlashcards dbUnused [⟨"f", "b", "manual", none, none⟩] "user-1" :=
  ⟨(C7_user_id_forced_and_spoof_independent dbUnused
      [⟨"f", "b", "manual", none, some "attacker"⟩]
      [⟨"f", "b", "manual", none, none⟩] "user-1" rfl).1
     [⟨"f", "b", "manual", none, "user-1"⟩] rfl
     ⟨"f", "b", "manual", none, "user-1"⟩ (by simp),
   (C7_user_id_forced_and_spoof_independent dbUnused
      [⟨"f", "b", "manual", none, some "attacker"⟩]
      [⟨"f", "b", "manual", none, none⟩] "user-1" rfl).2⟩
